import Mathlib

/-!
Shallow embedding of the voluptuous schema engine
(src/voluptuous/schema_builder.py and src/voluptuous/error.py) and proofs about
the behaviour of its compiled validators.

Conventions:
* Python values are modelled by the inductive `PyVal`; the `UNDEFINED` sentinel
  instance of class `Undefined` (schema_builder.py:30-38) is `PyVal.undefined`.
* Python dicts are association lists in insertion order; assignment keeps the
  original key object and replaces the value, or appends at the end.
* Validator closures have the shape of the calls made in the source,
  `key_schema(path + [key_name], value[key_name])` (schema_builder.py:373) and
  `validator(path + [i], item)` (schema_builder.py:439): a function of the path
  and the value.  The `iterable` parameter of the compiled closures is unused in
  every closure body in the source and is therefore omitted from the embedding.
* Exceptions of class InvalidError (and subclasses, error.py) are modelled by
  `PyErr`; raising is modelled with `Except`.
-/

namespace Voluptuous

/-- Python values, as far as the validation engine inspects them.  `undefined`
is the sentinel `UNDEFINED` instance of class `Undefined`
(schema_builder.py:30-38). -/
inductive PyVal where
  | int (n : Int)
  | str (s : String)
  | pynone
  | undefined
  | list (xs : List PyVal)
  | dict (entries : List (PyVal × PyVal))

mutual

/-- Structural equality of Python values: the semantics of `==` on the
built-in types the engine compares. -/
def PyVal.beq : PyVal → PyVal → Bool
  | .int a, .int b => a == b
  | .str a, .str b => a == b
  | .pynone, .pynone => true
  | .undefined, .undefined => true
  | .list xs, .list ys => beqValList xs ys
  | .dict xs, .dict ys => beqEntryList xs ys
  | _, _ => false

/-- Elementwise equality of lists of Python values. -/
def beqValList : List PyVal → List PyVal → Bool
  | [], [] => true
  | a :: as, b :: bs => PyVal.beq a b && beqValList as bs
  | _, _ => false

/-- Elementwise equality of dict entry lists. -/
def beqEntryList : List (PyVal × PyVal) → List (PyVal × PyVal) → Bool
  | [], [] => true
  | (k1, v1) :: as, (k2, v2) :: bs =>
    PyVal.beq k1 k2 && PyVal.beq v1 v2 && beqEntryList as bs
  | _, _ => false

end

instance : BEq PyVal := ⟨PyVal.beq⟩

/-- Python str() of a value, used by the f-string interpolations in the error
messages of validate_dict and validate_sequence.  Container rendering is
abbreviated: no claim depends on the string form of a container value, and
containers are unhashable and hence never dict keys in Python. -/
def pyStr : PyVal → String
  | .int n => toString n
  | .str s => s
  | .pynone => "None"
  | .undefined => "..."
  | .list _ => "<list>"
  | .dict _ => "<dict>"

/-- Python repr() of a value, used by validate_value in _compile_scalar
(schema_builder.py:611).  Containers abbreviated as in pyStr. -/
def pyRepr : PyVal → String
  | .int n => toString n
  | .str s => "\x27" ++ s ++ "\x27"
  | .pynone => "None"
  | .undefined => "..."
  | .list _ => "<list>"
  | .dict _ => "<dict>"

/-- Entries of a Python dict, in insertion order. -/
abbrev Entries := List (PyVal × PyVal)

/-- Python `k in d` for a dict. -/
def dictMem (k : PyVal) (d : Entries) : Bool :=
  d.any (fun p => p.1 == k)

/-- Python `d[k]` for a dict; the engine only indexes keys it has membership-
tested first, so the default for a missing key is irrelevant. -/
def dictGet (k : PyVal) (d : Entries) : PyVal :=
  ((d.find? (fun p => p.1 == k)).map Prod.snd).getD .undefined

/-- Python `d[k] = v`: replace the value of an existing key (keeping the stored
key object) or append a new entry at the end. -/
def dictSet (d : Entries) (k v : PyVal) : Entries :=
  if dictMem k d then d.map (fun p => if p.1 == k then (p.1, v) else p)
  else d ++ [(k, v)]

/-- The concrete InvalidError subclasses of error.py that the engine
constructs, plus the base class itself as `invalid`.  `extraKeysInvalid` is
modelled from the spec: the spec names an ExtraKeysInvalid kind for
PreventExtra violations, but error.py defines no such class and
validate_dict constructs the base er.Invalid for extra keys
(schema_builder.py:390-394); the constructor exists here only so that the
claim about that kind can be stated. -/
inductive ErrKind where
  | invalid
  | requiredFieldInvalid
  | dictInvalid
  | objectInvalid
  | exclusiveInvalid
  | inclusiveInvalid
  | sequenceTypeInvalid
  | extraKeysInvalid
deriving DecidableEq

/-- A raised InvalidError.  `invalid kind message path` is a single error:
InvalidError.__init__ (error.py:24-34) stores the message and `_path = path or
[]`; every constructor call in schema_builder.py passes only a message, so the
engine's own errors all carry path [].  `multiple errors` is
MultipleInvalidError (error.py:49-60), itself an InvalidError (so it is caught
by `except er.Invalid`), holding the list of collected errors. -/
inductive PyErr where
  | invalid (kind : ErrKind) (message : String) (path : List PyVal)
  | multiple (errors : List PyErr)

/-- The `path` attribute of an error (error.py:36-39).  A
MultipleInvalidError is constructed with message only, so its own path is []. -/
def PyErr.path : PyErr → List PyVal
  | .invalid _ _ p => p
  | .multiple _ => []

/-- Whether an error is an instance of exactly the given concrete subclass. -/
def PyErr.kindIs : PyErr → ErrKind → Bool
  | .invalid k _ _, k0 => k == k0
  | .multiple _, _ => false

/-- Data paths threaded through validation: keys or indices. -/
abbrev Path := List PyVal

/-- A compiled validator closure, as invoked by the engine:
`validator(path, value)` returning the validated value or raising an
InvalidError. -/
abbrev Validator := Path → PyVal → Except PyErr PyVal

/-- A key of a dict schema: either a plain value or one of the five Marker
subclasses (schema_builder.py:724-965).  `dflt` is the raw `default` argument
given at construction (`PyVal.undefined` when omitted); Exclusive.__init__
accepts no default argument, and Remove stores an object id `oid` used by its
identity-based hash. -/
inductive SchemaKey where
  | plain (k : PyVal)
  | required (k : PyVal) (dflt : PyVal)
  | optionalK (k : PyVal) (dflt : PyVal)
  | exclusive (k : PyVal) (group : String)
  | inclusive (k : PyVal) (group : String) (dflt : PyVal)
  | remove (k : PyVal) (oid : Nat)

/-- The underlying key: `key.schema` for a Marker, the key itself otherwise
(schema_builder.py:366-369). -/
def SchemaKey.name : SchemaKey → PyVal
  | .plain k => k
  | .required k _ => k
  | .optionalK k _ => k
  | .exclusive k _ => k
  | .inclusive k _ _ => k
  | .remove k _ => k

/-- isinstance(key, Marker). -/
def SchemaKey.isMarker : SchemaKey → Bool
  | .plain _ => false
  | _ => true

/-- isinstance(key, Required): class Required derives from Marker directly, so
Optional, Exclusive, Inclusive, Remove are not Required. -/
def SchemaKey.isRequired : SchemaKey → Bool
  | .required _ _ => true
  | _ => false

/-- isinstance(key, Optional): Exclusive and Inclusive derive from Optional
(schema_builder.py:806, 853); Required and Remove derive from Marker only. -/
def SchemaKey.isOptionalClass : SchemaKey → Bool
  | .optionalK _ _ => true
  | .exclusive _ _ => true
  | .inclusive _ _ _ => true
  | _ => false

/-- The raw `default` constructor argument of an Optional-family marker.
Exclusive.__init__ (schema_builder.py:842-850) passes no default to
Optional.__init__, so its raw default is always the UNDEFINED sentinel.  For
plain keys and Required/Remove the attribute is never read in the branch that
uses this function (it is guarded by isOptionalClass). -/
def SchemaKey.rawDefault : SchemaKey → PyVal
  | .optionalK _ d => d
  | .inclusive _ _ d => d
  | .required _ d => d
  | _ => .undefined

/-- The function default_factory (schema_builder.py:10-22) wraps the raw
default in a closure `lambda: default() if callable(default) else default`.
Within the modelled value universe no value is callable, so invoking the
factory returns the raw default itself; when no default was configured this is
the UNDEFINED sentinel, not an absent value. -/
def callDefaultFactory (raw : PyVal) : PyVal := raw

/-- The guard `key.default != UNDEFINED` (schema_builder.py:382) compares the
stored factory closure - `self.default = default_factory(default)` is always a
function object - with the UNDEFINED sentinel.  Class Undefined defines no
__eq__, so the comparison falls back to identity and a function is never the
sentinel: the guard is true for every marker, whether or not a default was
configured. -/
def defaultFactoryNeqUndefined (_raw : PyVal) : Bool := true

/-- Membership of a plain input key in `set(schema)`, as used by
`set(value) - set(schema)` (schema_builder.py:388, 396).  Set membership first
matches the hash: Marker.__init__ stores `hash(schema_)` so an Optional/
Required/Exclusive/Inclusive marker sits in the bucket of its underlying key
and then compares equal to it through Marker.__eq__; Remove.__init__
(schema_builder.py:950-957) overrides the hash with `object.__hash__(self)`,
an identity-based hash modelled as never colliding with a value hash, so a
Remove marker never matches a plain key. -/
def keyMatches (sk : SchemaKey) (k : PyVal) : Bool :=
  match sk with
  | .remove _ _ => false
  | sk => sk.name == k

/-- The extra keys `set(value) - set(schema)`, as the list of input keys (in
insertion order, standing in for Python's arbitrary set order) matching no
schema key. -/
def extraKeys (schema : List (SchemaKey × Validator)) (d : Entries) : List PyVal :=
  (d.map Prod.fst).filter (fun k => !(schema.any (fun e => keyMatches e.1 k)))

/-- The RequiredFieldInvalid appended for an absent required key
(schema_builder.py:376-381): constructed with a message only, so its path
attribute is []. -/
def requiredErr (key_name : PyVal) : PyErr :=
  .invalid .requiredFieldInvalid
    ("required key not provided @ data[\x27" ++ pyStr key_name ++ "\x27]") []

/-- The er.Invalid appended when PREVENT_EXTRA finds extra keys
(schema_builder.py:390-394): base Invalid class, message only, path []. -/
def extraInvalid (k : PyVal) : PyErr :=
  .invalid .invalid ("extra keys not allowed @ data[\x27" ++ pyStr k ++ "\x27]") []

/-- One iteration of the per-key loop of validate_dict
(schema_builder.py:365-385).  The accumulator carries the state of the input
dict `value` first (every statement of the loop only reads it), then `out`,
then `errors`. -/
def dictStep (path : Path) (acc : Entries × Entries × List PyErr)
    (entry : SchemaKey × Validator) : Entries × Entries × List PyErr :=
  let (value, out, errors) := acc
  let (key, key_schema) := entry
  let key_name := key.name
  if dictMem key_name value then
    match key_schema (path ++ [key_name]) (dictGet key_name value) with
    | .ok v => (value, dictSet out key_name v, errors)
    | .error e => (value, out, errors ++ [e])
  else if key.isRequired then
    (value, out, errors ++ [requiredErr key_name])
  else if key.isOptionalClass && defaultFactoryNeqUndefined key.rawDefault then
    (value, dictSet out key_name (callDefaultFactory key.rawDefault), errors)
  else
    (value, out, errors)

/-- The whole per-key loop of validate_dict over the schema entries, in
`schema.items()` (insertion) order, starting from `out = {}` and
`errors = []`. -/
def dictPass (path : Path) (schema : List (SchemaKey × Validator))
    (entries : Entries) : Entries × Entries × List PyErr :=
  schema.foldl (dictStep path) (entries, [], [])

def PREVENT_EXTRA : Int := 0
def ALLOW_EXTRA : Int := 1
def REMOVE_EXTRA : Int := 2

/-- The error (if any) appended by the extra-key section
(schema_builder.py:387-394): only under PREVENT_EXTRA, and only one er.Invalid
naming one offending key (`extra_keys.pop()`, modelled as the head) however
many extra keys exist. -/
def extraErrList (extra : Int) (schema : List (SchemaKey × Validator))
    (entries : Entries) : List PyErr :=
  if extra == PREVENT_EXTRA then
    match extraKeys schema entries with
    | [] => []
    | k :: _ => [extraInvalid k]
  else []

/-- The output updates of the extra-key section (schema_builder.py:395-398):
only under REMOVE_EXTRA, each extra key is copied into `out` (the
`key not in out` guard included).  Under any other policy, ALLOW_EXTRA
included, the source has no branch and `out` is unchanged. -/
def extraOut (extra : Int) (schema : List (SchemaKey × Validator))
    (entries : Entries) (out : Entries) : Entries :=
  if extra == REMOVE_EXTRA then
    (extraKeys schema entries).foldl
      (fun o k => if dictMem k o then o else dictSet o k (dictGet k entries)) out
  else out

/-- Result of a call to the compiled dict validator, together with the final
state of the input dict (for the frame property). -/
structure DictCallOut where
  result : Except PyErr PyVal
  valueAfter : PyVal

/-- validate_dict, the closure returned by Schema._compile_dict
(schema_builder.py:357-403): type check, per-key loop, extra-key policy, then
raise MultipleInvalid if any error was collected, else return the fresh
output dict. -/
def validate_dict (extra : Int) (schema : List (SchemaKey × Validator))
    (path : Path) (value : PyVal) : DictCallOut :=
  match value with
  | .dict entries =>
    let (valueS, out, errors) := dictPass path schema entries
    let errors := errors ++ extraErrList extra schema valueS
    let out := extraOut extra schema valueS out
    if errors.isEmpty then ⟨.ok (.dict out), .dict valueS⟩
    else ⟨.error (.multiple errors), .dict valueS⟩
  | v => ⟨.error (.invalid .dictInvalid "expected a dictionary" []), v⟩

/-- The er.Invalid raised by the for/else of validate_sequence when no
validator accepts an element (schema_builder.py:444): base Invalid, message
interpolating str(item), constructed with a message only - its path is []. -/
def noValidElementErr (item : PyVal) : PyErr :=
  .invalid .invalid ("no valid element found for " ++ pyStr item) []

/-- The inner loop of validate_sequence for one element
(schema_builder.py:437-444): try each validator of the schema in declaration
order with `validator(path + [i], item)`, swallowing any Invalid; the first
success wins, and if the loop falls through (Python for/else) the generic
"no valid element found" Invalid is raised. -/
def seqTryOne (schema : List Validator) (path : Path) (i : Nat) (item : PyVal) :
    Except PyErr PyVal :=
  match schema with
  | [] => .error (noValidElementErr item)
  | v :: rest =>
    match v (path ++ [.int i]) item with
    | .ok r => .ok r
    | .error _ => seqTryOne rest path i item

/-- One iteration of the outer element loop of validate_sequence
(schema_builder.py:435-446), on the accumulated (result, errors) pair: a
successful first match appends the validated element to `result`, a fall-
through appends the caught Invalid to `errors` and validation continues with
the remaining elements. -/
def seqStep (schema : List Validator) (path : Path)
    (acc : List PyVal × List PyErr) (p : Nat × PyVal) :
    List PyVal × List PyErr :=
  match seqTryOne schema path p.1 p.2 with
  | .ok r => (acc.1 ++ [r], acc.2)
  | .error e => (acc.1, acc.2 ++ [e])

/-- validate_sequence for list schemas, the closure returned by
Schema._compile_sequence via _compile_list (schema_builder.py:423-453):
type check, empty-schema wildcard, per-element first-match loop collecting
one error per element that fails all validators, then MultipleInvalid or the
rebuilt list. -/
def validate_sequence (schema : List Validator) (path : Path) (value : PyVal) :
    Except PyErr PyVal :=
  match value with
  | .list items =>
    if schema.isEmpty then .ok value
    else
      let (result, errors) := items.enum.foldl (seqStep schema path) ([], [])
      if errors.isEmpty then .ok (.list result)
      else .error (.multiple errors)
  | _ => .error (.invalid .sequenceTypeInvalid "expected a list" [])

/-- validate_instance from _compile_scalar (schema_builder.py:577-587) for the
schema `int`: an isinstance check (bools, subclasses of int in Python, are
outside the modelled universe). -/
def validate_instance_int : Validator := fun _ v =>
  match v with
  | .int _ => .ok v
  | _ => .error (.invalid .invalid "expected int" [])

/-- validate_instance from _compile_scalar (schema_builder.py:577-587) for the
schema `str`. -/
def validate_instance_str : Validator := fun _ v =>
  match v with
  | .str _ => .ok v
  | _ => .error (.invalid .invalid "expected str" [])

/-- validate_value from _compile_scalar (schema_builder.py:607-614): equality
comparison against a literal schema value. -/
def validate_value (schema : PyVal) : Validator := fun _ v =>
  if v == schema then .ok v
  else .error (.invalid .invalid ("expected " ++ pyRepr schema) [])

/-- The attribute names bound in the body of `class Schema`
(schema_builder.py:71-555): the class attribute _extra_to_name and the
methods.  The instance attributes set by __init__ before line 119 are
schema, required and extra; the base class `object` contributes no further
name relevant to the lookup below. -/
def schemaClassAttrs : List String :=
  ["_extra_to_name", "__init__", "infer", "__eq__", "__ne__", "__str__",
   "__repr__", "__call__", "schema", "required", "extra",
   "_compile_mapping", "_compile_object", "_compile_dict",
   "_compile_sequence", "_compile_tuple", "_compile_list", "_compile_set",
   "extend"]

/-- A Python exception that is not an InvalidError, as escapes Schema
construction. -/
inductive PyExc where
  | attributeError (name : String)
deriving DecidableEq

/-- Schema.__init__ (schema_builder.py:99-119): stores schema, required and
int(extra) and then evaluates `self._compiled = self._compile(schema)`.  The
attribute lookup of `_compile` searches the instance attributes and the class
(and its base `object`); if the name is absent the lookup raises
AttributeError and construction fails.  No `_compile` is defined anywhere in
the repository (schema_builder.py defines only the `_compile_*` helpers
above), so the success payload below - the façade state the claim describes -
is never reached. -/
def Schema.init (schema : PyVal) (required : Bool) (extra : Int) :
    Except PyExc (PyVal × Bool × Int) :=
  if "_compile" ∈ schemaClassAttrs then .ok (schema, required, extra)
  else .error (.attributeError "_compile")

/-- A Python hash value as the engine's set operations distinguish them:
either the hash of a value (`hash(schema_)`, stored by Marker.__init__,
schema_builder.py:743) or the identity-based `object.__hash__(self)` stored
by Remove.__init__ (schema_builder.py:957).  Identity hashes are modelled as
disjoint from value hashes. -/
inductive PyHashV where
  | ofValue (v : PyVal)
  | ofId (oid : Nat)

/-- hash(key) for a schema key: plain keys hash as themselves, markers as the
cached `hash(schema_)` of their underlying key, except Remove which caches
`object.__hash__(self)`. -/
def markerHash : SchemaKey → PyHashV
  | .remove _ oid => .ofId oid
  | sk => .ofValue sk.name

/-- Marker.__eq__ (schema_builder.py:765-766): `self.schema == other`,
inherited unchanged by all five marker subclasses, Remove included. -/
def markerEq (sk : SchemaKey) (other : PyVal) : Bool :=
  sk.name == other

/-- The dict schema `{Exclusive('a','g'): int, Exclusive('b','g'): int}`,
with the int sub-validator compiled by _compile_scalar. -/
def exclusiveSchema : List (SchemaKey × Validator) :=
  [(.exclusive (.str "a") "g", validate_instance_int),
   (.exclusive (.str "b") "g", validate_instance_int)]

/-- The dict schema `{Inclusive('x','g'): int, Inclusive('y','g'): int}`. -/
def inclusiveSchema : List (SchemaKey × Validator) :=
  [(.inclusive (.str "x") "g" .undefined, validate_instance_int),
   (.inclusive (.str "y") "g" .undefined, validate_instance_int)]

/-- C1: the claim says constructing the Schema façade succeeds and compiles
the definition exactly once.  In the code, Schema.__init__ evaluates
`self._compile(schema)` (schema_builder.py:119) but no `_compile` is defined
anywhere in the repository, so the attribute lookup raises AttributeError and
construction fails for every definition, required flag and extra policy -
contradicting the module's own doctests, which construct Schema objects
throughout. -/
theorem schema_init_always_raises_attribute_error :
    ∀ (s : PyVal) (r : Bool) (e : Int),
      Schema.init s r e = .error (.attributeError "_compile") := by
  intro s r e
  have h : ¬ ("_compile" ∈ schemaClassAttrs) := by decide
  simp [Schema.init, h]

/-- C2: the claim says AllowExtra copies extra keys into the output and
RemoveExtra drops them.  The code does exactly the opposite (contradicting
the Schema.__init__ docstring, schema_builder.py:106-114): under ALLOW_EXTRA
the extra-key section has no branch and the extra key of `{'a': 1}` against
the empty dict schema is dropped, while under REMOVE_EXTRA the extra key is
copied into the output. -/
theorem extra_policies_swapped :
    (validate_dict ALLOW_EXTRA [] [] (.dict [(.str "a", .int 1)])).result
      = .ok (.dict [])
    ∧ (validate_dict REMOVE_EXTRA [] [] (.dict [(.str "a", .int 1)])).result
      = .ok (.dict [(.str "a", .int 1)]) :=
  ⟨rfl, rfl⟩

/-- C3: the claim says that for `{Exclusive('a','g'): int, Exclusive('b','g'):
int}` the input `{'a': 1, 'b': 2}` fails with one group error.  validate_dict
contains no exclusive-group check at all (contradicting the doctests of class
Exclusive, schema_builder.py:815-839): the input with both keys of the group
validates successfully, and the input `{'a': 1}` also succeeds but with the
UNDEFINED sentinel stored under the absent key. -/
theorem exclusive_group_not_enforced :
    (validate_dict PREVENT_EXTRA exclusiveSchema []
        (.dict [(.str "a", .int 1), (.str "b", .int 2)])).result
      = .ok (.dict [(.str "a", .int 1), (.str "b", .int 2)])
    ∧ (validate_dict PREVENT_EXTRA exclusiveSchema []
        (.dict [(.str "a", .int 1)])).result
      = .ok (.dict [(.str "a", .int 1), (.str "b", .undefined)]) :=
  ⟨rfl, rfl⟩

/-- C4: the claim says that for `{Inclusive('x','g'): int, Inclusive('y','g'):
int}` the input `{'x': 1}` fails.  validate_dict contains no inclusive-group
check (contradicting the doctests of class Inclusive,
schema_builder.py:866-892): `{'x': 1}` succeeds, with the UNDEFINED sentinel
stored under the absent group member; `{}` and `{'x': 1, 'y': 2}` succeed as
the claim states, though `{}` also receives the sentinels. -/
theorem inclusive_group_not_enforced :
    (validate_dict PREVENT_EXTRA inclusiveSchema []
        (.dict [(.str "x", .int 1)])).result
      = .ok (.dict [(.str "x", .int 1), (.str "y", .undefined)])
    ∧ (validate_dict PREVENT_EXTRA inclusiveSchema [] (.dict [])).result
      = .ok (.dict [(.str "x", .undefined), (.str "y", .undefined)])
    ∧ (validate_dict PREVENT_EXTRA inclusiveSchema []
        (.dict [(.str "x", .int 1), (.str "y", .int 2)])).result
      = .ok (.dict [(.str "x", .int 1), (.str "y", .int 2)]) :=
  ⟨rfl, rfl, rfl⟩

/-- C7: the claim says an Optional key with no configured default that is
absent from the input does not appear in the output.  Because the guard
`key.default != UNDEFINED` compares the default factory closure (always a
function) with the sentinel, it is always true, and the factory of an
unconfigured Optional returns the UNDEFINED sentinel itself: the output of
validating `{}` against `{Optional('key'): str}` contains the key, mapped to
the sentinel - contradicting the doctest of class Optional
(schema_builder.py:775-777), which expects `{}`. -/
theorem optional_without_default_fills_sentinel :
    (validate_dict PREVENT_EXTRA
        [(.optionalK (.str "key") .undefined, validate_instance_str)] []
        (.dict [])).result
      = .ok (.dict [(.str "key", .undefined)]) :=
  rfl

/-- C5 counterexample: the claim says the RequiredFieldInvalid for an absent
required key has path [key].  For the schema `{Required('a'): int}` and input
`{}` the single RequiredFieldInvalid is constructed with a message only
(schema_builder.py:377-381), so its path attribute is [], not ['a']. -/
theorem required_error_path_empty_counterexample :
    (validate_dict PREVENT_EXTRA
        [(.required (.str "a") .undefined, validate_instance_int)] []
        (.dict [])).result
      = .error (.multiple [requiredErr (.str "a")])
    ∧ (requiredErr (.str "a")).path = []
    ∧ ([] : List PyVal) ≠ [.str "a"] :=
  ⟨rfl, rfl, by simp⟩

/-- C6 counterexample: the claim says the aggregate contains an error of the
ExtraKeysInvalid kind.  For the empty dict schema under PREVENT_EXTRA and
input `{'a': 1}` the single error appended is the base er.Invalid
(schema_builder.py:390-394) - error.py defines no ExtraKeysInvalid class -
so no error of that kind occurs. -/
theorem extra_error_is_base_invalid_counterexample :
    (validate_dict PREVENT_EXTRA [] [] (.dict [(.str "a", .int 1)])).result
      = .error (.multiple [extraInvalid (.str "a")])
    ∧ (extraInvalid (.str "a")).kindIs .extraKeysInvalid = false
    ∧ (extraInvalid (.str "a")).kindIs .invalid = true :=
  ⟨rfl, rfl, rfl⟩

/-- C8 counterexample: the claim says an element matching no schema entry
contributes an error whose path is [index].  For the schema `['one', int]`
and input `['z']` the single error is raised with a message only
(schema_builder.py:444), so its path is [], not [0]. -/
theorem sequence_error_path_empty_counterexample :
    validate_sequence [validate_value (.str "one"), validate_instance_int]
        [] (.list [.str "z"])
      = .error (.multiple [noValidElementErr (.str "z")])
    ∧ (noValidElementErr (.str "z")).path = []
    ∧ ([] : List PyVal) ≠ [.int 0] :=
  ⟨rfl, rfl, by simp⟩

/-- C9 counterexample: the claim says every marker kind, Remove included,
hashes equal to hash of its wrapped key.  A Remove marker compares equal to
its key through the inherited Marker.__eq__, but Remove.__init__ replaces the
hash with the identity-based object.__hash__, which is not the hash of the
key: the marker therefore does not match its plain key in the engine's
hash-based set difference. -/
theorem remove_hash_not_key_hash_counterexample :
    markerEq (.remove (.str "a") 0) (.str "a") = true
    ∧ markerHash (.remove (.str "a") 0) ≠ .ofValue (.str "a")
    ∧ keyMatches (.remove (.str "a") 0) (.str "a") = false :=
  ⟨rfl, by simp [markerHash], rfl⟩

/-- C9 (amended): Required, Optional, Exclusive and Inclusive markers compare
equal to their wrapped key and hash as the hash of that key, so they are
interchangeable with the plain key in the engine's set operations; Remove
also compares equal to its key but hashes by object identity, so it never
matches the plain key in the hash-based set difference of validate_dict. -/
theorem marker_key_identity (k other d dg : PyVal) (g : String) (oid : Nat) :
    markerEq (.required k d) other = (k == other)
    ∧ markerEq (.optionalK k d) other = (k == other)
    ∧ markerEq (.exclusive k g) other = (k == other)
    ∧ markerEq (.inclusive k g dg) other = (k == other)
    ∧ markerEq (.remove k oid) other = (k == other)
    ∧ markerHash (.required k d) = .ofValue k
    ∧ markerHash (.optionalK k d) = .ofValue k
    ∧ markerHash (.exclusive k g) = .ofValue k
    ∧ markerHash (.inclusive k g dg) = .ofValue k
    ∧ markerHash (.remove k oid) = .ofId oid
    ∧ keyMatches (.required k d) other = (k == other)
    ∧ keyMatches (.optionalK k d) other = (k == other)
    ∧ keyMatches (.exclusive k g) other = (k == other)
    ∧ keyMatches (.inclusive k g dg) other = (k == other)
    ∧ keyMatches (.remove k oid) other = false :=
  ⟨rfl, rfl, rfl, rfl, rfl, rfl, rfl, rfl, rfl, rfl, rfl, rfl, rfl, rfl, rfl⟩

/-- Each iteration of the per-key loop leaves the input dict untouched: every
statement of the loop body only reads `value`. -/
theorem dictStep_fst (path : Path) (acc : Entries × Entries × List PyErr)
    (e : SchemaKey × Validator) : (dictStep path acc e).1 = acc.1 := by
  obtain ⟨v, o, es⟩ := acc
  obtain ⟨key, f⟩ := e
  simp only [dictStep]
  split
  · split <;> rfl
  · split
    · rfl
    · split <;> rfl

/-- The whole per-key loop leaves the input dict untouched. -/
theorem dictFold_fst (path : Path) :
    ∀ (s : List (SchemaKey × Validator)) (acc : Entries × Entries × List PyErr),
      (s.foldl (dictStep path) acc).1 = acc.1 := by
  intro s
  induction s with
  | nil => intro acc; rfl
  | cons e s ih =>
    intro acc
    rw [List.foldl_cons, ih (dictStep path acc e), dictStep_fst]

/-- C10: the compiled dict validator never mutates the input mapping: for
every extra policy, schema, path and input value, the input is exactly what
it was before the call, whether validation returns the fresh output dict or
fails.  Sub-validators are modelled as pure functions, matching the spec's
assumption that leaf callables are side-effect-free. -/
theorem validate_dict_preserves_input (extra : Int)
    (s : List (SchemaKey × Validator)) (path : Path) (v : PyVal) :
    (validate_dict extra s path v).valueAfter = v := by
  cases v with
  | dict entries =>
    have h1 : (dictPass path s entries).1 = entries := dictFold_fst path s _
    simp only [validate_dict]
    rcases hp : dictPass path s entries with ⟨v1, o, es⟩
    rw [hp] at h1
    simp only at h1
    subst h1
    split <;> rfl
  | int n => rfl
  | str st => rfl
  | pynone => rfl
  | undefined => rfl
  | list xs => rfl

/-- The errors contributed by one schema entry in the per-key loop of
validate_dict: the sub-validator's error when the key is present and fails,
the RequiredFieldInvalid when a Required key is absent, nothing otherwise
(the default-filling branch contributes no error). -/
def dictStepErr (path : Path) (value : Entries) (entry : SchemaKey × Validator) :
    List PyErr :=
  if dictMem entry.1.name value then
    match entry.2 (path ++ [entry.1.name]) (dictGet entry.1.name value) with
    | .ok _ => []
    | .error e => [e]
  else if entry.1.isRequired then [requiredErr entry.1.name]
  else []

/-- The concatenation of the per-entry error contributions, in schema order. -/
def dictErrs (path : Path) (value : Entries) :
    List (SchemaKey × Validator) → List PyErr
  | [] => []
  | e :: s => dictStepErr path value e ++ dictErrs path value s

/-- One loop iteration appends exactly its dictStepErr contribution. -/
theorem dictStep_errors (path : Path) (acc : Entries × Entries × List PyErr)
    (e : SchemaKey × Validator) :
    (dictStep path acc e).2.2 = acc.2.2 ++ dictStepErr path acc.1 e := by
  obtain ⟨v, o, es⟩ := acc
  obtain ⟨key, f⟩ := e
  simp only [dictStep, dictStepErr]
  split
  · split <;> simp
  · split
    · rfl
    · split <;> simp

/-- The error list of the whole per-key loop is the concatenation of the
per-entry contributions. -/
theorem dictFold_errors (path : Path) :
    ∀ (s : List (SchemaKey × Validator)) (acc : Entries × Entries × List PyErr),
      (s.foldl (dictStep path) acc).2.2 = acc.2.2 ++ dictErrs path acc.1 s := by
  intro s
  induction s with
  | nil => intro acc; simp [dictErrs]
  | cons e s ih =>
    intro acc
    rw [List.foldl_cons, ih (dictStep path acc e), dictStep_errors, dictStep_fst,
      dictErrs, List.append_assoc]

/-- The list of errors a caller observes in the aggregate raised by a call to
the compiled dict validator ([] when validation succeeds). -/
def dictCallErrors (extra : Int) (schema : List (SchemaKey × Validator))
    (path : Path) (value : PyVal) : List PyErr :=
  match (validate_dict extra schema path value).result with
  | .ok _ => []
  | .error (.multiple es) => es
  | .error e => [e]

/-- A dict-input call collects exactly the per-entry errors followed by the
extra-key error (if the policy produces one). -/
theorem dictCallErrors_eq (extra : Int) (s : List (SchemaKey × Validator))
    (path : Path) (entries : Entries) :
    dictCallErrors extra s path (.dict entries)
      = dictErrs path entries s ++ extraErrList extra s entries := by
  have h1 : (dictPass path s entries).1 = entries := dictFold_fst path s _
  have h2 : (dictPass path s entries).2.2 = dictErrs path entries s := by
    have := dictFold_errors path s (entries, [], [])
    simpa [dictPass] using this
  simp only [dictCallErrors, validate_dict]
  rcases hp : dictPass path s entries with ⟨v1, o, es⟩
  rw [hp] at h1 h2
  simp only at h1 h2
  subst h1
  subst h2
  by_cases hE : (dictErrs path v1 s ++ extraErrList extra s v1).isEmpty = true
  · have hnil : dictErrs path v1 s ++ extraErrList extra s v1 = [] := by
      simpa [List.isEmpty_iff] using hE
    simp [hE, hnil]
  · simp [hE]

/-- The RequiredFieldInvalid errors in the per-entry contributions are exactly
one per Required key absent from the input, provided sub-validators do not
themselves raise RequiredFieldInvalid. -/
theorem dictErrs_filter_required (path : Path) (entries : Entries) :
    ∀ (s : List (SchemaKey × Validator)),
      (∀ e ∈ s, ∀ p x err, e.2 p x = .error err →
        err.kindIs .requiredFieldInvalid = false) →
      (dictErrs path entries s).filter (fun e => e.kindIs .requiredFieldInvalid)
        = (s.filter (fun e => e.1.isRequired && !(dictMem e.1.name entries))).map
            (fun e => requiredErr e.1.name) := by
  intro s
  induction s with
  | nil => intro _; rfl
  | cons e s ih =>
    intro hv
    rw [dictErrs, List.filter_append,
      ih (fun e2 he2 => hv e2 (List.mem_cons_of_mem _ he2))]
    obtain ⟨key, f⟩ := e
    by_cases h1 : dictMem key.name entries = true
    · have hstep :
          (dictStepErr path entries (key, f)).filter
            (fun e => e.kindIs .requiredFieldInvalid) = [] := by
        simp only [dictStepErr, h1, if_true]
        cases hf : f (path ++ [key.name]) (dictGet key.name entries) with
        | ok r => rfl
        | error err =>
          have hk := hv (key, f) (List.mem_cons_self _ _) _ _ _ hf
          simp [hk]
      rw [hstep, List.filter_cons]
      simp [h1]
    · by_cases h2 : key.isRequired = true
      · have hstep :
            (dictStepErr path entries (key, f)).filter
              (fun e => e.kindIs .requiredFieldInvalid)
              = [requiredErr key.name] := by
          simp [dictStepErr, h1, h2, requiredErr, PyErr.kindIs]
        rw [hstep, List.filter_cons]
        simp [h1, h2]
      · have hstep :
            (dictStepErr path entries (key, f)).filter
              (fun e => e.kindIs .requiredFieldInvalid) = [] := by
          simp [dictStepErr, h1, h2]
        rw [hstep, List.filter_cons]
        simp [h1, h2]

/-- C5 (amended): for every dict schema, input dict, path and extra policy -
as long as the sub-validators do not themselves raise RequiredFieldInvalid -
the RequiredFieldInvalid errors of the raised aggregate are exactly one per
Required-marked key absent from the input, in schema order, each being
`requiredErr key`: constructed with a message naming the key and, contrary to
the claim as stated, a path attribute that is the empty list, not [key]. -/
theorem required_absent_one_error_each (extra : Int) (path : Path)
    (s : List (SchemaKey × Validator)) (entries : Entries)
    (hv : ∀ e ∈ s, ∀ p x err, e.2 p x = .error err →
      err.kindIs .requiredFieldInvalid = false) :
    (dictCallErrors extra s path (.dict entries)).filter
        (fun e => e.kindIs .requiredFieldInvalid)
      = (s.filter (fun e => e.1.isRequired && !(dictMem e.1.name entries))).map
          (fun e => requiredErr e.1.name) := by
  rw [dictCallErrors_eq, List.filter_append,
    dictErrs_filter_required path entries s hv]
  have hextra :
      (extraErrList extra s entries).filter
        (fun e => e.kindIs .requiredFieldInvalid) = [] := by
    unfold extraErrList
    split
    · split
      · rfl
      · rfl
    · rfl
  rw [hextra, List.append_nil]

/-- A failing run of the compiled int scalar validator raises the base
er.Invalid, never a RequiredFieldInvalid. -/
theorem validate_instance_int_error_kind :
    ∀ (p : Path) (x : PyVal) (err : PyErr),
      validate_instance_int p x = .error err →
      err.kindIs .requiredFieldInvalid = false := by
  intro p x err h
  cases x <;> simp only [validate_instance_int] at h <;>
    first
      | (rw [Except.error.injEq] at h; rw [← h]; rfl)
      | exact absurd h (by simp)

/-- Witness for required_absent_one_error_each: the schema
`{Required('a'): int, Optional('b'): int}` against the input `{}` yields the
single RequiredFieldInvalid for key a. -/
theorem required_absent_one_error_each_witness :
    (dictCallErrors PREVENT_EXTRA
        [(.required (.str "a") .undefined, validate_instance_int),
         (.optionalK (.str "b") .undefined, validate_instance_int)] []
        (.dict [])).filter (fun e => e.kindIs .requiredFieldInvalid)
      = [requiredErr (.str "a")] := by
  have h := required_absent_one_error_each PREVENT_EXTRA []
    [(.required (.str "a") .undefined, validate_instance_int),
     (.optionalK (.str "b") .undefined, validate_instance_int)] []
    (by
      intro e he p x err hf
      simp only [List.mem_cons, List.mem_singleton] at he
      rcases he with rfl | rfl | h0
      · exact validate_instance_int_error_kind p x err hf
      · exact validate_instance_int_error_kind p x err hf
      · exact absurd h0 (List.not_mem_nil e))
  exact h.trans rfl

/-- C6 (amended): for every dict schema under PREVENT_EXTRA whose input has
at least one extra key, validation fails and the aggregate is the per-entry
errors followed by exactly one extra-keys error - of the base Invalid kind,
since error.py defines no ExtraKeysInvalid class - referencing the single
popped offending key, however many extra keys are present. -/
theorem prevent_extra_single_base_invalid
    (s : List (SchemaKey × Validator)) (path : Path) (entries : Entries)
    (k : PyVal) (ks : List PyVal) (h : extraKeys s entries = k :: ks) :
    (validate_dict PREVENT_EXTRA s path (.dict entries)).result
      = .error (.multiple (dictErrs path entries s ++ [extraInvalid k]))
    ∧ (extraInvalid k).kindIs .invalid = true := by
  constructor
  · have hx : extraErrList PREVENT_EXTRA s entries = [extraInvalid k] := by
      simp [extraErrList, h]
    have h1 : (dictPass path s entries).1 = entries := dictFold_fst path s _
    have h2 : (dictPass path s entries).2.2 = dictErrs path entries s := by
      simpa [dictPass] using dictFold_errors path s (entries, [], [])
    simp only [validate_dict]
    rcases hp : dictPass path s entries with ⟨v1, o, es⟩
    rw [hp] at h1 h2
    simp only at h1 h2
    subst h1
    subst h2
    have hne :
        (dictErrs path v1 s ++ extraErrList PREVENT_EXTRA s v1).isEmpty
          = false := by
      cases hd : dictErrs path v1 s <;> simp [hx, hd]
    simp [hne, hx]
  · rfl

/-- Witness for prevent_extra_single_base_invalid: empty dict schema, input
with two extra keys - one base Invalid naming the first popped key. -/
theorem prevent_extra_single_base_invalid_witness :
    (validate_dict PREVENT_EXTRA [] []
        (.dict [(.str "a", .int 1), (.str "b", .int 2)])).result
      = .error (.multiple
          (dictErrs [] [(.str "a", .int 1), (.str "b", .int 2)] []
            ++ [extraInvalid (.str "a")]))
    ∧ (extraInvalid (.str "a")).kindIs .invalid = true :=
  prevent_extra_single_base_invalid [] []
    [(.str "a", .int 1), (.str "b", .int 2)] (.str "a") [.str "b"] rfl

/-- Any error raised by the per-element loop is the generic "no valid element
found" Invalid, whatever the schema validators raised: their errors are
swallowed by the inner try/except. -/
theorem seqTryOne_error_shape (path : Path) (i : Nat) (item : PyVal) :
    ∀ (sch : List Validator) (e : PyErr),
      seqTryOne sch path i item = .error e → e = noValidElementErr item := by
  intro sch
  induction sch with
  | nil =>
    intro e h
    simp only [seqTryOne, Except.error.injEq] at h
    exact h.symm
  | cons v rest ih =>
    intro e h
    simp only [seqTryOne] at h
    cases hv : v (path ++ [.int i]) item with
    | ok r => rw [hv] at h; exact absurd h (by simp)
    | error e2 => rw [hv] at h; exact ih e h

/-- Whether an element of the input list matches none of the schema entries
(the case in which the for/else raises). -/
def elementFails (sch : List Validator) (path : Path) (i : Nat)
    (item : PyVal) : Bool :=
  match seqTryOne sch path i item with
  | .ok _ => false
  | .error _ => true

/-- The list of errors a caller observes in the aggregate raised by a call to
the compiled list validator ([] when validation succeeds). -/
def seqCallErrors (sch : List Validator) (path : Path) (value : PyVal) :
    List PyErr :=
  match validate_sequence sch path value with
  | .ok _ => []
  | .error (.multiple es) => es
  | .error e => [e]

/-- The errors component of the element loop: one "no valid element found"
error per element failing every schema entry, in element order. -/
theorem seqFold_errors (sch : List Validator) (path : Path) :
    ∀ (l : List (Nat × PyVal)) (acc : List PyVal × List PyErr),
      (l.foldl (seqStep sch path) acc).2
        = acc.2 ++ (l.filter (fun p => elementFails sch path p.1 p.2)).map
            (fun p => noValidElementErr p.2) := by
  intro l
  induction l with
  | nil => intro acc; simp
  | cons p l ih =>
    intro acc
    rw [List.foldl_cons, ih]
    cases hp : seqTryOne sch path p.1 p.2 with
    | ok r => simp [List.filter_cons, elementFails, seqStep, hp]
    | error e =>
      have he : e = noValidElementErr p.2 :=
        seqTryOne_error_shape path p.1 p.2 sch e hp
      simp [List.filter_cons, elementFails, seqStep, hp, he]

/-- C8 (amended): for every non-empty list schema, path and input list, the
aggregate contains exactly one error per element that matches no schema
entry - validation of the remaining elements continues - and each such error
is the generic noValidElementErr for that element: message naming the item,
path attribute [] rather than [index] as the claim stated. -/
theorem seq_one_error_per_failing_element (sch : List Validator) (path : Path)
    (items : List PyVal) (h : sch ≠ []) :
    seqCallErrors sch path (.list items)
      = (items.enum.filter (fun p => elementFails sch path p.1 p.2)).map
          (fun p => noValidElementErr p.2) := by
  have hne : sch.isEmpty = false := by
    cases sch
    · exact absurd rfl h
    · rfl
  simp only [seqCallErrors, validate_sequence, hne]
  have hf := seqFold_errors sch path items.enum ([], [])
  rcases hp : items.enum.foldl (seqStep sch path) ([], []) with ⟨res, errs⟩
  rw [hp] at hf
  simp only at hf
  subst hf
  by_cases hE :
      ((items.enum.filter (fun p => elementFails sch path p.1 p.2)).map
        (fun p => noValidElementErr p.2)).isEmpty = true
  · have hnil :
        (items.enum.filter (fun p => elementFails sch path p.1 p.2)).map
          (fun p => noValidElementErr p.2) = [] := by
      simpa [List.isEmpty_iff] using hE
    simp [hp, hE, hnil]
  · simp [hp, hE]

/-- Witness for seq_one_error_per_failing_element: the schema `['one', int]`
on input `['z', 3, 'q']` - two failing elements, two errors. -/
theorem seq_one_error_per_failing_element_witness :
    seqCallErrors [validate_value (.str "one"), validate_instance_int] []
        (.list [.str "z", .int 3, .str "q"])
      = [noValidElementErr (.str "z"), noValidElementErr (.str "q")] :=
  (seq_one_error_per_failing_element
    [validate_value (.str "one"), validate_instance_int] []
    [.str "z", .int 3, .str "q"] (List.cons_ne_nil _ _)).trans rfl

end Voluptuous
